import Mathlib

/-!
Verification development for the swarm arcade-shooter simulation core
(two near-duplicate Application variants: a scrolling one and a
non-scrolling one).  JavaScript numbers are embedded as rationals; the
per-frame logic is embedded as pure state-transition functions on
explicit records.  Configuration values that live outside the two source
files (cooldown constants, pool capacity, enemy type templates, random
draws) are passed as explicit parameters; the external devkit-entities
pool and base-entity operations, which are not part of the two source
files, are modelled from the specification where a claim needs them.
-/

namespace Swarm

/-- Background width: var BG_WIDTH = 576 in the non-scrolling variant
(the scrolling variant reads config.bgWidth; the spec scenarios use 576). -/
def BG_WIDTH : ℚ := 576

/-- Background height: var BG_HEIGHT = 1024. -/
def BG_HEIGHT : ℚ := 1024

/-! ## Player input (Player.startInput / Player.updateInput) -/

/-- Player input state: current horizontal position x and the drag anchor
inputStartX recorded at gesture start. -/
structure PlayerInput where
  x : ℚ
  inputStartX : ℚ
  deriving DecidableEq, Repr

/-- Source Player.startInput: this.inputStartX = this.x. -/
def startInput (p : PlayerInput) : PlayerInput :=
  { p with inputStartX := p.x }

/-- Source Player.updateInput (horizontal part, both variants):
dx *= PLAYER_MOVE_MULT; this.x = max(0, min(BG_WIDTH, this.inputStartX + dx)). -/
def updateInput (mult dx : ℚ) (p : PlayerInput) : PlayerInput :=
  { p with x := max 0 (min BG_WIDTH (p.inputStartX + dx * mult)) }

/-- Apply a sequence of gesture-move deltas in order. -/
def applyInputs (mult : ℚ) (p : PlayerInput) : List ℚ → PlayerInput
  | [] => p
  | dx :: rest => applyInputs mult (updateInput mult dx p) rest

/-! ## Bullet spawn timer (Bullets.update, both variants)

The source decrements the countdown by dt and fires AT MOST ONE bullet
per tick, re-arming by adding the cooldown constant:

  this.spawnCooldown -= dt;
  if (this.spawnCooldown <= 0) \x7b
    this.spawnBullet();
    this.spawnCooldown += SPAWN_COOLDOWN;
  \x7d
-/

/-- One tick of the bullet spawn timer, returning the new countdown and
the number of bullets fired that tick (0 or 1).  Transcribed from the
source if-statement: a single check, not a loop. -/
def bulletSpawnStep (sc : ℚ) (cool dt : ℚ) : ℚ × ℕ :=
  let c := sc - dt
  if c ≤ 0 then (c + cool, 1) else (c, 0)

/-- Modelled from the spec: the claimed loop form of the bullet spawn
timer, which keeps firing and re-arming within the same tick while the
countdown remains at or below zero (fuel bounds the recursion; it is
chosen large enough in each concrete use). -/
def bulletSpawnLoop (fuel : ℕ) (sc : ℚ) (cool dt : ℚ) : ℚ × ℕ :=
  go fuel (sc - dt)
where
  go : ℕ → ℚ → ℚ × ℕ
    | 0, c => (c, 0)
    | fuel + 1, c =>
      if c ≤ 0 then
        let r := go fuel (c + cool)
        (r.1, r.2 + 1)
      else (c, 0)

/-- Iterate the source bullet timer for n constant-dt ticks starting from
a freshly reset countdown (Bullets.reset sets spawnCooldown to the
cooldown constant), returning the final countdown and total bullets
fired. -/
def bulletsRun (cool dt : ℚ) : ℕ → ℚ × ℕ
  | 0 => (cool, 0)
  | n + 1 =>
    let r := bulletsRun cool dt n
    let s := bulletSpawnStep r.1 cool dt
    (s.1, r.2 + s.2)

/-! ## Enemy difficulty ramp (Enemies.spawnEnemy, both variants)

  if (this.spawnMax > this.spawnMin) \x7b this.spawnMax--; \x7d
-/

/-- The spawnMax decrement performed at the start of every spawnEnemy
call: decrement by one while spawnMax is strictly above spawnMin. -/
def spawnEnemyRamp (mn mx : ℚ) : ℚ :=
  if mx > mn then mx - 1 else mx

/-- Value of spawnMax after k spawn events starting from mx. -/
def rampIter (mn mx : ℚ) : ℕ → ℚ
  | 0 => mx
  | k + 1 => spawnEnemyRamp mn (rampIter mn mx k)

/-! ## Entities and application state (scrolling variant, src/Application.js) -/

/-- View-bounds rectangle: offsets x, y and extents w, h relative to an
entity position (used for both rendering and collision). -/
structure Bounds where
  x : ℚ
  y : ℚ
  w : ℚ
  h : ℚ
  deriving DecidableEq, Repr

/-- A pooled entity: position plus its viewBounds rectangle. -/
structure EntityS where
  x : ℚ
  y : ℚ
  bounds : Bounds
  deriving DecidableEq, Repr

/-- Configuration values read from src/config.js, which is outside the
two source files; they are opaque parameters of the simulation core. -/
structure Config where
  offsetX : ℚ
  offsetY : ℚ
  moveMult : ℚ
  playerBounds : Bounds
  bulletCooldown : ℚ
  bulletBounds : Bounds
  bulletCap : ℕ
  spawnCooldownMin : ℚ
  spawnCooldownMax : ℚ
  enemyCap : ℕ
  deriving Repr

/-- One enemy-spawn worth of random draws (utils.rollFloat and
utils.choose are outside the two source files): the re-arm roll, the
chosen enemy type template bounds, and the spawn-x roll. -/
structure Rand where
  roll : ℚ
  typeBounds : Bounds
  spawnX : ℚ
  deriving Repr

/-- The mutable application state touched by the simulation core:
session state (score, gameOver), player state, the two pools with their
spawn timers, the element-layer scroll transform, and counters for the
observable external effects (explosion emissions, scheduled resets). -/
structure AppState where
  score : ℕ
  gameOver : Bool
  playerVisible : Bool
  playerX : ℚ
  playerY : ℚ
  inputStartX : ℚ
  elementLayerY : ℚ
  bulletsCooldown : ℚ
  bulletsActive : List EntityS
  enemiesCooldown : ℚ
  spawnMin : ℚ
  spawnMax : ℚ
  enemiesActive : List EntityS
  explosions : ℕ
  pendingResets : ℕ
  deriving DecidableEq, Repr

/-- Source Player.getScreenY: return this.y - OFF_Y. -/
def getScreenY (cfg : Config) (s : AppState) : ℚ :=
  s.playerY - cfg.offsetY

/-- Modelled from the spec: EntityPool.obtain (external devkit-entities
module) activates one inactive entity with the given state; it is a
no-op when the pool is saturated. -/
def poolObtain (cap : ℕ) (e : EntityS) (l : List EntityS) : List EntityS :=
  if l.length < cap then l ++ [e] else l

/-- Release an entity from an active list (first occurrence). -/
def removeFirst (e : EntityS) : List EntityS → List EntityS
  | [] => []
  | a :: rest => if a = e then rest else a :: removeFirst e rest

/-- Source Bullet.update release condition (scrolling variant):
this.y + b.y + b.h < app.player.getScreenY(). -/
def bulletReleased (anchor : ℚ) (e : EntityS) : Bool :=
  decide (e.y + e.bounds.y + e.bounds.h < anchor)

/-- Source Bullet.update: base entity update (a no-op on the modelled
state) followed by the release-on-exit check; none means the bullet
released itself back to the pool. -/
def bulletUpdate (anchor : ℚ) (e : EntityS) : Option EntityS :=
  if bulletReleased anchor e then none else some e

/-- Source Enemy.update release condition (scrolling variant):
this.y + b.y > app.player.getScreenY() + BG_HEIGHT. -/
def enemyReleased (anchor : ℚ) (e : EntityS) : Bool :=
  decide (e.y + e.bounds.y > anchor + BG_HEIGHT)

/-- Source Bullets.spawnBullet: return immediately when app.gameOver,
otherwise obtain a bullet at the player position. -/
def spawnBullet (cfg : Config) (s : AppState) : AppState :=
  if s.gameOver then s
  else
    let b : EntityS := ⟨s.playerX, s.playerY, cfg.bulletBounds⟩
    { s with bulletsActive := poolObtain cfg.bulletCap b s.bulletsActive }

/-- Source Bullets.update: decrement the countdown by dt; when it is at
or below zero, fire one bullet and re-arm by adding the cooldown
constant (a single if, as in the source); then run the pool update,
during which each bullet may release itself. -/
def bulletsUpdate (cfg : Config) (dt : ℚ) (s : AppState) : AppState :=
  let c := s.bulletsCooldown - dt
  let s1 :=
    if c ≤ 0 then
      { spawnBullet cfg s with bulletsCooldown := c + cfg.bulletCooldown }
    else { s with bulletsCooldown := c }
  { s1 with bulletsActive :=
      s1.bulletsActive.filter (fun e => !bulletReleased (getScreenY cfg s1) e) }

/-- Source Enemies.spawnEnemy: apply the difficulty-ramp decrement to
spawnMax, choose a type template, roll a spawn x, place y just above the
scroll-adjusted viewport top, and obtain an enemy. -/
def spawnEnemy (cfg : Config) (rnd : Rand) (s : AppState) : AppState :=
  let mx := spawnEnemyRamp s.spawnMin s.spawnMax
  let b := rnd.typeBounds
  let y := -(b.y + b.h) + getScreenY cfg s
  let e : EntityS := ⟨rnd.spawnX, y, b⟩
  { s with spawnMax := mx,
           enemiesActive := poolObtain cfg.enemyCap e s.enemiesActive }

/-- Source Enemies.update: decrement the countdown by dt; when it is at
or below zero, spawn one enemy and re-arm by adding the rolled interval;
then run the pool update, during which each enemy may release itself. -/
def enemiesUpdate (cfg : Config) (rnd : Rand) (dt : ℚ) (s : AppState) :
    AppState :=
  let c := s.enemiesCooldown - dt
  let s1 :=
    if c ≤ 0 then
      { spawnEnemy cfg rnd s with enemiesCooldown := c + rnd.roll }
    else { s with enemiesCooldown := c }
  { s1 with enemiesActive :=
      s1.enemiesActive.filter (fun e => !enemyReleased (getScreenY cfg s1) e) }

/-- Source Application.onGameOver: guarded on !this.gameOver; hides the
player, emits an explosion at the player, sets gameOver, and schedules
one delayed reset (setTimeout, counted here as a pending reset). -/
def onGameOver (s : AppState) : AppState :=
  if !s.gameOver then
    { s with playerVisible := false,
             explosions := s.explosions + 1,
             gameOver := true,
             pendingResets := s.pendingResets + 1 }
  else s

/-- Source Application.reset: zero the score, clear gameOver, reset the
element-layer transform, reset the player to its configured anchor
(Entity.reset is external: modelled from the spec as placing the entity),
reset both pools (spawn counters to configured defaults, all active
entities released — EntityPool.reset is external, modelled from the
spec). -/
def appReset (cfg : Config) (s : AppState) : AppState :=
  { s with score := 0,
           gameOver := false,
           elementLayerY := 0,
           playerX := cfg.offsetX,
           playerY := cfg.offsetY,
           bulletsCooldown := cfg.bulletCooldown,
           bulletsActive := [],
           enemiesCooldown := 0,
           spawnMin := cfg.spawnCooldownMin,
           spawnMax := cfg.spawnCooldownMax,
           enemiesActive := [] }

/-! ## Collision sweeps and the frame tick -/

/-- Modelled from the spec: inclusive axis-aligned bounding-box overlap
of two entities in world space (position + viewBounds); edge contact
counts as a collision. -/
def rectOverlap (a b : EntityS) : Bool :=
  decide (a.x + a.bounds.x ≤ b.x + b.bounds.x + b.bounds.w) &&
  decide (b.x + b.bounds.x ≤ a.x + a.bounds.x + a.bounds.w) &&
  decide (a.y + a.bounds.y ≤ b.y + b.bounds.y + b.bounds.h) &&
  decide (b.y + b.bounds.y ≤ a.y + a.bounds.y + a.bounds.h)

/-- Modelled from the spec: EntityPool.onFirstPoolCollisions (external)
scans for the first overlapping bullet-enemy pair and stops. -/
def firstHitPair : List EntityS → List EntityS → Option (EntityS × EntityS)
  | [], _ => none
  | b :: bs, es =>
    match es.find? (fun e => rectOverlap b e) with
    | some e => some (b, e)
    | none => firstHitPair bs es

/-- Source Application.onBulletHit wired through the external
first-pair scan: emit an explosion at the enemy, release the enemy,
release the bullet; at most one pair is processed per tick. -/
def bulletEnemyCollisions (s : AppState) : AppState :=
  match firstHitPair s.bulletsActive s.enemiesActive with
  | none => s
  | some (b, e) =>
    { s with explosions := s.explosions + 1,
             enemiesActive := removeFirst e s.enemiesActive,
             bulletsActive := removeFirst b s.bulletsActive }

/-- The player as a collidable entity at its current position. -/
def playerEntity (cfg : Config) (s : AppState) : EntityS :=
  ⟨s.playerX, s.playerY, cfg.playerBounds⟩

/-- Modelled from the spec: EntityPool.onFirstCollision (external) scans
enemies against the player and invokes the game-over handler on the
first overlap. -/
def enemyPlayerCollision (cfg : Config) (s : AppState) : AppState :=
  if s.enemiesActive.any (fun e => rectOverlap e (playerEntity cfg s)) then
    onGameOver s
  else s

/-- Source Player.update: the base Entity.update, external to the two
source files; modelled from the spec as a no-op position integrator. -/
def playerUpdate (dt : ℚ) (s : AppState) : AppState :=
  let _ := dt
  s

/-- The particle collaborator runTick: external, does not touch the
simulation state. -/
def particlesTick (s : AppState) : AppState := s

/-- Recompute the scroll offset from the player position and apply it to
the element-layer transform (the parallax collaborator receives the same
offset externally): var screenOffsetY = -this.player.getScreenY(). -/
def applyScrollOffset (cfg : Config) (s : AppState) : AppState :=
  { s with elementLayerY := -(getScreenY cfg s) }

/-- The seven phases of Application.tick, used to record execution
order. -/
inductive Phase where
  | player
  | bullets
  | enemies
  | scroll
  | bulletHits
  | playerHit
  | particles
  deriving DecidableEq, Repr

/-- Run one phase and append its label to the execution log. -/
def phaseStep (f : AppState → AppState) (p : Phase) :
    AppState × List Phase → AppState × List Phase
  | (s, log) => (f s, log ++ [p])

/-- Source Application.tick (scrolling variant), phase by phase in
source order: update player, update bullets, update enemies, recompute
and apply the scroll offset, resolve bullet-enemy collisions, resolve
the enemy-player collision, advance particles. -/
def tick (cfg : Config) (rnd : Rand) (dt : ℚ) (s0 : AppState) :
    AppState × List Phase :=
  let t1 := phaseStep (playerUpdate dt) Phase.player (s0, [])
  let t2 := phaseStep (bulletsUpdate cfg dt) Phase.bullets t1
  let t3 := phaseStep (enemiesUpdate cfg rnd dt) Phase.enemies t2
  let t4 := phaseStep (applyScrollOffset cfg) Phase.scroll t3
  let t5 := phaseStep bulletEnemyCollisions Phase.bulletHits t4
  let t6 := phaseStep (enemyPlayerCollision cfg) Phase.playerHit t5
  phaseStep particlesTick Phase.particles t6

/-! ## Sample concrete values used by witnesses -/

/-- A sample configuration. -/
def cfg0 : Config :=
  ⟨288, 874, 1, ⟨-20, -20, 40, 40⟩, 1, ⟨-5, -30, 10, 20⟩, 16, 2, 6, 12⟩

/-- A sample random draw for one enemy spawn. -/
def rnd0 : Rand := ⟨3, ⟨0, 0, 10, 20⟩, 100⟩

/-- A sample application state in which the game is already over. -/
def over0 : AppState :=
  ⟨0, true, false, 288, 874, 288, 0, 1, [], 0, 2, 6, [], 1, 1⟩

/-! ## Helper lemmas -/

/-- Applying a gesture-move sequence never changes the drag anchor. -/
lemma applyInputs_inputStartX (mult : ℚ) (p : PlayerInput) (ds : List ℚ) :
    (applyInputs mult p ds).inputStartX = p.inputStartX := by
  induction ds generalizing p with
  | nil => rfl
  | cons dx rest ih => simp [applyInputs, ih, updateInput]

/-- Gesture-move sequences compose by concatenation. -/
lemma applyInputs_append (mult : ℚ) (p : PlayerInput) (l1 l2 : List ℚ) :
    applyInputs mult p (l1 ++ l2) = applyInputs mult (applyInputs mult p l1) l2 := by
  induction l1 generalizing p with
  | nil => rfl
  | cons dx rest ih => simp [applyInputs, ih]

/-- The state after updateInput is fully determined by the drag anchor. -/
lemma updateInput_congr (mult d : ℚ) (p q : PlayerInput)
    (h : p.inputStartX = q.inputStartX) :
    updateInput mult d p = updateInput mult d q := by
  cases p; cases q; simp_all [updateInput]

/-- With an integer gap d between spawnMax and spawnMin, the ramp value
after k spawn events is mn plus the truncated remaining gap d - k. -/
lemma rampIter_int_gap (mn : ℚ) (d : ℕ) :
    ∀ k : ℕ, rampIter mn (mn + d) k = mn + ((d - k : ℕ) : ℚ) := by
  intro k
  induction k with
  | zero => simp [rampIter]
  | succ k ih =>
    rw [rampIter, ih, spawnEnemyRamp]
    rcases Nat.eq_zero_or_pos (d - k) with h | h
    · have h2 : d - (k + 1) = 0 := by omega
      rw [h, h2]
      simp
    · have hgt : mn + ((d - k : ℕ) : ℚ) > mn := by
        have hq : (0 : ℚ) < ((d - k : ℕ) : ℚ) := by exact_mod_cast h
        linarith
      rw [if_pos hgt]
      have h3 : d - k = (d - (k + 1)) + 1 := by omega
      rw [h3]
      push_cast
      ring

/-- Running the source bullet timer with a positive per-tick dt no
larger than the cooldown keeps the countdown in (0, cool] and ties it
linearly to the number of bullets fired. -/
lemma bulletsRun_invariant (cool dt : ℚ) (hdt : 0 < dt) (hle : dt ≤ cool) :
    ∀ n : ℕ, 0 < (bulletsRun cool dt n).1 ∧ (bulletsRun cool dt n).1 ≤ cool ∧
      (bulletsRun cool dt n).1 =
        cool + cool * ((bulletsRun cool dt n).2 : ℚ) - (n : ℚ) * dt := by
  intro n
  induction n with
  | zero =>
    refine ⟨by simp [bulletsRun]; linarith, by simp [bulletsRun],
      by simp [bulletsRun]⟩
  | succ n ih =>
    obtain ⟨h1, h2, h3⟩ := ih
    by_cases hc : (bulletsRun cool dt n).1 - dt ≤ 0
    · simp only [bulletsRun, bulletSpawnStep, if_pos hc]
      refine ⟨by linarith, by linarith, ?_⟩
      push_cast
      linarith
    · simp only [bulletsRun, bulletSpawnStep, if_neg hc]
      push_neg at hc
      refine ⟨by linarith, by linarith, ?_⟩
      push_cast
      linarith

/-! ## Claim theorems -/

/-- C1 counterexample: with cooldown constant 1, countdown 1 and a
single tick of dt = 3 (three cooldown intervals elapse), the source
Bullets.update fires exactly ONE bullet and leaves the countdown at -1
(no re-check within the tick), while the claimed loop form fires three
bullets that tick. -/
theorem bullet_single_fire_counterexample :
    bulletSpawnStep 1 1 3 = (-1, 1) ∧ (bulletSpawnLoop 5 1 1 3).2 = 3 := by
  constructor
  · rw [bulletSpawnStep]
    norm_num
  · rw [bulletSpawnLoop]
    norm_num [bulletSpawnLoop.go]

/-- C1 amended: when the countdown reaches zero or below, the pool fires
exactly ONE bullet that tick (a single if, not a loop) and re-arms the
timer by adding the cooldown constant, preserving fractional overshoot;
when it stays positive, nothing fires; and provided the cooldown
constant is at least 1/30 (so that both frame steps fit within one
cooldown), the total number of bullets fired over one second is
identical for dt = 1/60 (60 ticks) and dt = 1/30 (30 ticks). -/
theorem bullets_framerate_independence (cool : ℚ) (hcool30 : 1 / 30 ≤ cool) :
    (∀ sc dt : ℚ, sc - dt ≤ 0 →
      bulletSpawnStep sc cool dt = (sc - dt + cool, 1)) ∧
    (∀ sc dt : ℚ, 0 < sc - dt →
      bulletSpawnStep sc cool dt = (sc - dt, 0)) ∧
    (bulletsRun cool (1 / 60) 60).2 = (bulletsRun cool (1 / 30) 30).2 := by
  refine ⟨?_, ?_, ?_⟩
  · intro sc dt h
    simp [bulletSpawnStep, h]
  · intro sc dt h
    simp [bulletSpawnStep, not_le.mpr h]
  · obtain ⟨a1, a2, a3⟩ :=
      bulletsRun_invariant cool (1 / 60) (by norm_num) (by linarith) 60
    obtain ⟨b1, b2, b3⟩ :=
      bulletsRun_invariant cool (1 / 30) (by norm_num) (by linarith) 30
    have hcool : 0 < cool := by linarith
    set A : ℕ := (bulletsRun cool (1 / 60) 60).2 with hA
    set B : ℕ := (bulletsRun cool (1 / 30) 30).2 with hB
    have hdiff : cool * ((A : ℚ) - (B : ℚ)) =
        (bulletsRun cool (1 / 60) 60).1 - (bulletsRun cool (1 / 30) 30).1 := by
      rw [a3, b3]
      push_cast
      ring_nf
    have hub : cool * ((A : ℚ) - (B : ℚ)) < cool * 1 := by
      rw [hdiff, mul_one]
      linarith
    have hlb : cool * (-1) < cool * ((A : ℚ) - (B : ℚ)) := by
      rw [hdiff]
      linarith
    have hx1 : (A : ℚ) - (B : ℚ) < 1 := (mul_lt_mul_left hcool).mp hub
    have hx2 : (-1 : ℚ) < (A : ℚ) - (B : ℚ) := (mul_lt_mul_left hcool).mp hlb
    have hz : ((A : ℤ) - (B : ℤ) : ℤ) = 0 := by
      have c1 : (((A : ℤ) - (B : ℤ) : ℤ) : ℚ) < 1 := by push_cast; linarith
      have c2 : (-1 : ℚ) < (((A : ℤ) - (B : ℤ) : ℤ) : ℚ) := by push_cast; linarith
      have d1 : ((A : ℤ) - (B : ℤ) : ℤ) < 1 := by exact_mod_cast c1
      have d2 : (-1 : ℤ) < ((A : ℤ) - (B : ℤ) : ℤ) := by exact_mod_cast c2
      omega
    have : (A : ℤ) = (B : ℤ) := by omega
    exact_mod_cast this

/-- Witness for C1 at the concrete cooldown constant 1. -/
theorem bullets_framerate_independence_witness :
    (∀ sc dt : ℚ, sc - dt ≤ 0 →
      bulletSpawnStep sc 1 dt = (sc - dt + 1, 1)) ∧
    (∀ sc dt : ℚ, 0 < sc - dt →
      bulletSpawnStep sc 1 dt = (sc - dt, 0)) ∧
    (bulletsRun 1 (1 / 60) 60).2 = (bulletsRun 1 (1 / 30) 30).2 :=
  bullets_framerate_independence 1 (by norm_num)

/-- C2 counterexample: with spawnMin = 1 and spawnMax = 3/2 (a valid
configuration with spawnMin ≤ spawnMax but a non-integer gap), a single
spawn event drives spawnMax to 1/2, strictly below spawnMin. -/
theorem spawnMax_non_integer_counterexample :
    (1 : ℚ) ≤ 3 / 2 ∧ rampIter 1 (3 / 2) 1 < 1 := by
  constructor
  · norm_num
  · rw [rampIter, rampIter, spawnEnemyRamp, if_pos (by norm_num)]
    norm_num

/-- C2 amended: spawnMax is non-increasing across spawn events for every
configuration; when the gap spawnMax - spawnMin is a non-negative
integer d (in particular for integer-valued configurations), it never
falls below spawnMin and the per-spawn unit decrement stops exactly at
spawnMin after d spawns; for non-integer gaps the last decrement
overshoots below spawnMin. -/
theorem spawnMax_ramp_monotone (mn : ℚ) (d k : ℕ) :
    (∀ mx : ℚ, spawnEnemyRamp mn mx ≤ mx) ∧
    mn ≤ rampIter mn (mn + d) k ∧
    rampIter mn (mn + d) (k + 1) ≤ rampIter mn (mn + d) k ∧
    rampIter mn (mn + d) (d + k) = mn := by
  refine ⟨?_, ?_, ?_, ?_⟩
  · intro mx
    rw [spawnEnemyRamp]
    split <;> linarith
  · rw [rampIter_int_gap]
    have hq : (0 : ℚ) ≤ ((d - k : ℕ) : ℚ) := Nat.cast_nonneg _
    linarith
  · rw [rampIter_int_gap, rampIter_int_gap]
    have hle : d - (k + 1) ≤ d - k := by omega
    have hq : ((d - (k + 1) : ℕ) : ℚ) ≤ ((d - k : ℕ) : ℚ) := by
      exact_mod_cast hle
    linarith
  · rw [rampIter_int_gap]
    have h0 : d - (d + k) = 0 := by omega
    rw [h0]
    simp

/-- C5: Player.updateInput clamps the horizontal position to
[0, BG_WIDTH] for every anchor, delta and multiplier (deltas may exceed
the screen width); in particular anchor 288, dx 1000, multiplier 1
yields x = 576, not 1288. -/
theorem updateInput_clamps :
    (∀ (mult dx : ℚ) (p : PlayerInput),
      0 ≤ (updateInput mult dx p).x ∧ (updateInput mult dx p).x ≤ BG_WIDTH) ∧
    (updateInput 1 1000 ⟨288, 288⟩).x = 576 := by
  constructor
  · intro mult dx p
    constructor
    · exact le_max_left 0 _
    · exact max_le (by norm_num [BG_WIDTH]) (min_le_left _ _)
  · norm_num [updateInput, BG_WIDTH]

/-- C10: within one gesture, updateInput is history-free given the
anchor: a whole sequence of moves ending in delta d leaves the same
player state as the single move d applied right after startInput, and
repeating the same delta is idempotent. -/
theorem updateInput_history_free :
    ∀ (mult d : ℚ) (p : PlayerInput) (ds : List ℚ),
      applyInputs mult (startInput p) (ds ++ [d]) =
        updateInput mult d (startInput p) ∧
      updateInput mult d (updateInput mult d p) = updateInput mult d p := by
  intro mult d p ds
  constructor
  · rw [applyInputs_append]
    show updateInput mult d (applyInputs mult (startInput p) ds) = _
    exact updateInput_congr mult d _ _
      (applyInputs_inputStartX mult (startInput p) ds)
  · exact updateInput_congr mult d _ _ rfl

/-- C6: the game-over handler is idempotent: with gameOver already true
it changes nothing (player not re-hidden, no extra explosion, no second
scheduled reset), and a double invocation equals a single one, so
gameOver rises from false to true at most once per session. -/
theorem onGameOver_idempotent :
    ∀ s : AppState,
      (s.gameOver = true → onGameOver s = s) ∧
      onGameOver (onGameOver s) = onGameOver s := by
  intro s
  constructor
  · intro h; simp [onGameOver, h]
  · by_cases h : s.gameOver = true
    · simp [onGameOver, h]
    · simp only [Bool.not_eq_true] at h
      simp [onGameOver, h]

/-- Witness for C6 at a concrete game-over state. -/
theorem onGameOver_idempotent_witness :
    (over0.gameOver = true → onGameOver over0 = over0) ∧
    onGameOver (onGameOver over0) = onGameOver over0 :=
  onGameOver_idempotent over0

/-- C7: after Application.reset the session has score 0, gameOver false,
empty bullet and enemy pools, and the spawn counters back at their
configured defaults (bullet countdown at the cooldown constant, enemy
countdown at 0, spawnMin and spawnMax at the configured bounds),
regardless of the prior state. -/
theorem appReset_fresh_session :
    ∀ (cfg : Config) (s : AppState),
      (appReset cfg s).score = 0 ∧
      (appReset cfg s).gameOver = false ∧
      (appReset cfg s).bulletsActive = [] ∧
      (appReset cfg s).enemiesActive = [] ∧
      (appReset cfg s).bulletsCooldown = cfg.bulletCooldown ∧
      (appReset cfg s).enemiesCooldown = 0 ∧
      (appReset cfg s).spawnMin = cfg.spawnCooldownMin ∧
      (appReset cfg s).spawnMax = cfg.spawnCooldownMax := by
  intro cfg s
  simp [appReset]

/-- C8: while gameOver is true, spawnBullet is a complete no-op — the
whole application state, in particular the bullets pool's active set, is
unchanged, for every configuration and player position — and a full
Bullets.update tick under gameOver introduces no new bullet (every
bullet active afterwards was already active before), for any dt. -/
theorem spawnBullet_suppressed_gameOver :
    ∀ (cfg : Config) (s : AppState), s.gameOver = true →
      spawnBullet cfg s = s ∧
      ∀ (dt : ℚ) (e : EntityS),
        e ∈ (bulletsUpdate cfg dt s).bulletsActive → e ∈ s.bulletsActive := by
  intro cfg s h
  constructor
  · simp [spawnBullet, h]
  · intro dt e he
    by_cases hc : s.bulletsCooldown - dt ≤ 0
    · simp only [bulletsUpdate, spawnBullet, h, if_pos hc, if_true] at he
      exact List.mem_of_mem_filter he
    · simp only [bulletsUpdate, if_neg hc] at he
      exact List.mem_of_mem_filter he

/-- Witness for C8 at a concrete game-over state. -/
theorem spawnBullet_suppressed_gameOver_witness :
    spawnBullet cfg0 over0 = over0 ∧
    ∀ (dt : ℚ) (e : EntityS),
      e ∈ (bulletsUpdate cfg0 dt over0).bulletsActive →
        e ∈ over0.bulletsActive :=
  spawnBullet_suppressed_gameOver cfg0 over0 rfl

/-- C9: enemy spawning is not suppressed by game over: with gameOver
true, an Enemies.update tick whose countdown elapses still applies the
difficulty-ramp decrement to spawnMax and places the newly spawned enemy
in the active pool (given a free slot and a non-degenerate type
template), and Enemies.update is insensitive to the gameOver flag
altogether. -/
theorem enemies_spawn_despite_gameOver :
    ∀ (cfg : Config) (rnd : Rand) (dt : ℚ) (s : AppState),
      s.gameOver = true →
      s.enemiesCooldown - dt ≤ 0 →
      s.enemiesActive.length < cfg.enemyCap →
      0 ≤ rnd.typeBounds.h →
      (enemiesUpdate cfg rnd dt s).spawnMax =
        spawnEnemyRamp s.spawnMin s.spawnMax ∧
      (⟨rnd.spawnX, -(rnd.typeBounds.y + rnd.typeBounds.h) + getScreenY cfg s,
          rnd.typeBounds⟩ : EntityS) ∈ (enemiesUpdate cfg rnd dt s).enemiesActive ∧
      (∀ b : Bool, enemiesUpdate cfg rnd dt { s with gameOver := b } =
        { enemiesUpdate cfg rnd dt s with gameOver := b }) := by
  intro cfg rnd dt s hgo hc hcap hh
  have hc2 : s.enemiesCooldown ≤ dt := by linarith
  refine ⟨?_, ?_, ?_⟩
  · simp [enemiesUpdate, spawnEnemy, hc2]
  · simp only [enemiesUpdate, if_pos hc, spawnEnemy, poolObtain, if_pos hcap]
    rw [List.mem_filter]
    refine ⟨by simp, ?_⟩
    simp only [enemyReleased, getScreenY, Bool.not_eq_eq_eq_not, Bool.not_true,
      decide_eq_false_iff_not, not_lt]
    rw [BG_HEIGHT]
    linarith
  · intro b
    by_cases hc2 : s.enemiesCooldown - dt ≤ 0 <;>
      simp [enemiesUpdate, spawnEnemy, getScreenY, poolObtain, hc2]

/-- Witness for C9 at a concrete game-over state. -/
theorem enemies_spawn_despite_gameOver_witness :
    (enemiesUpdate cfg0 rnd0 1 over0).spawnMax =
      spawnEnemyRamp over0.spawnMin over0.spawnMax ∧
    (⟨rnd0.spawnX, -(rnd0.typeBounds.y + rnd0.typeBounds.h) + getScreenY cfg0 over0,
        rnd0.typeBounds⟩ : EntityS) ∈ (enemiesUpdate cfg0 rnd0 1 over0).enemiesActive ∧
    (∀ b : Bool, enemiesUpdate cfg0 rnd0 1 { over0 with gameOver := b } =
      { enemiesUpdate cfg0 rnd0 1 over0 with gameOver := b }) :=
  enemies_spawn_despite_gameOver cfg0 rnd0 1 over0 rfl (by norm_num [over0])
    (by norm_num [over0, cfg0]) (by norm_num [rnd0])

/-- C4 counterexample: a bullet at y = -10 with viewBounds offset 0 and
height 20 has its top edge y + bounds.y = -10 above the viewport top
(anchor 0), so the claim as stated requires it to be released, yet
Bullet.update keeps it: the source compares the bottom edge
y + bounds.y + bounds.h = 10 against the anchor. -/
theorem bullet_release_top_edge_counterexample :
    (-10 : ℚ) + 0 < 0 ∧
    bulletUpdate 0 ⟨288, -10, ⟨0, 0, 10, 20⟩⟩ =
      some ⟨288, -10, ⟨0, 0, 10, 20⟩⟩ := by
  constructor
  · norm_num
  · rw [bulletUpdate, if_neg]
    simp [bulletReleased]
    norm_num

/-- C4 amended: Bullet.update releases a bullet exactly when its BOTTOM
edge (position.y + viewBounds.y + viewBounds.h) has scrolled past the
top of the visible viewport (the player scroll anchor; 0 in the
non-scrolling variant); the spec scenario still holds: a bullet at
y = -25 with viewBounds offset 0 and height 20 under anchor 0 is
released. -/
theorem bulletUpdate_release_iff :
    (∀ (anchor : ℚ) (e : EntityS),
      bulletUpdate anchor e = none ↔ e.y + e.bounds.y + e.bounds.h < anchor) ∧
    bulletUpdate 0 ⟨288, -25, ⟨0, 0, 10, 20⟩⟩ = none := by
  constructor
  · intro anchor e
    constructor
    · intro h
      by_contra hn
      rw [bulletUpdate, if_neg (by simp [bulletReleased, hn])] at h
      exact Option.some_ne_none e h
    · intro h
      rw [bulletUpdate, if_pos (by simp [bulletReleased, h])]
  · rw [bulletUpdate, if_pos]
    simp [bulletReleased]
    norm_num

/-- C3 counterexample: on a concrete tick the recorded phase order is
not the claimed order (player, scroll offset, bullets, enemies,
bullet-enemy collisions, enemy-player collision, particles): the source
recomputes the scroll offset only after the bullets and enemies pool
updates. -/
theorem tick_order_counterexample :
    (tick cfg0 rnd0 1 over0).2 ≠
      [Phase.player, Phase.scroll, Phase.bullets, Phase.enemies,
       Phase.bulletHits, Phase.playerHit, Phase.particles] := by
  have h : (tick cfg0 rnd0 1 over0).2 =
      [Phase.player, Phase.bullets, Phase.enemies, Phase.scroll,
       Phase.bulletHits, Phase.playerHit, Phase.particles] := rfl
  rw [h]
  decide

/-- C3 amended: each tick performs, in this order: update the player,
update the bullets pool, update the enemies pool, THEN recompute the
scroll offset from the player position and apply it to the element-layer
transform, then resolve bullet-enemy collisions, then resolve the
enemy-player collision, then advance the visual-effects collaborator. -/
theorem tick_phase_order :
    ∀ (cfg : Config) (rnd : Rand) (dt : ℚ) (s : AppState),
      (tick cfg rnd dt s).2 =
        [Phase.player, Phase.bullets, Phase.enemies, Phase.scroll,
         Phase.bulletHits, Phase.playerHit, Phase.particles] := by
  intro cfg rnd dt s
  rfl

end Swarm
